import Mathlib

/-
Verification of the NexusMods-to-GitHub bug sync scripts
(`nexusmods_scraper.py`, `github_sync.py`, `sync.py`).

The Python sources are shallowly embedded below: pure functions become Lean
functions, the stateful GitHub-issue tracker becomes explicit state passing
over a `TrackerState`, fallible external calls become `Except`/`Option`
valued inputs, and machine integers of the MD5 digest become `Nat` with
explicit reduction modulo 2^32.
-/

/-! ## MD5 (the digest behind `BugReport.content_hash`, `hashlib.md5`)

`BugReport.content_hash` calls `hashlib.md5(content.encode()).hexdigest()`.
The MD5 digest (RFC 1321) over the UTF-8 bytes of the content string is
implemented here byte-for-byte; the implementation was checked against the
standard test vectors (empty string, "abc", multi-block inputs). -/

def M32 : Nat := 4294967296

def mask32 : Nat := 4294967295

def add32 (a b : Nat) : Nat := (a + b) % M32

def not32 (a : Nat) : Nat := a ^^^ mask32

def rotl32 (x s : Nat) : Nat := ((x <<< s) ||| (x >>> (32 - s))) % M32

/-- The 64 round constants of MD5 (floor(2^32 * abs(sin(i+1)))). -/
def md5K : List Nat :=
  [0xd76aa478, 0xe8c7b756, 0x242070db, 0xc1bdceee,
   0xf57c0faf, 0x4787c62a, 0xa8304613, 0xfd469501,
   0x698098d8, 0x8b44f7af, 0xffff5bb1, 0x895cd7be,
   0x6b901122, 0xfd987193, 0xa679438e, 0x49b40821,
   0xf61e2562, 0xc040b340, 0x265e5a51, 0xe9b6c7aa,
   0xd62f105d, 0x02441453, 0xd8a1e681, 0xe7d3fbc8,
   0x21e1cde6, 0xc33707d6, 0xf4d50d87, 0x455a14ed,
   0xa9e3e905, 0xfcefa3f8, 0x676f02d9, 0x8d2a4c8a,
   0xfffa3942, 0x8771f681, 0x6d9d6122, 0xfde5380c,
   0xa4beea44, 0x4bdecfa9, 0xf6bb4b60, 0xbebfbc70,
   0x289b7ec6, 0xeaa127fa, 0xd4ef3085, 0x04881d05,
   0xd9d4d039, 0xe6db99e5, 0x1fa27cf8, 0xc4ac5665,
   0xf4292244, 0x432aff97, 0xab9423a7, 0xfc93a039,
   0x655b59c3, 0x8f0ccc92, 0xffeff47d, 0x85845dd1,
   0x6fa87e4f, 0xfe2ce6e0, 0xa3014314, 0x4e0811a1,
   0xf7537e82, 0xbd3af235, 0x2ad7d2bb, 0xeb86d391]

/-- The per-round left-rotation amounts of MD5. -/
def md5S : List Nat :=
  [7, 12, 17, 22, 7, 12, 17, 22, 7, 12, 17, 22, 7, 12, 17, 22,
   5, 9, 14, 20, 5, 9, 14, 20, 5, 9, 14, 20, 5, 9, 14, 20,
   4, 11, 16, 23, 4, 11, 16, 23, 4, 11, 16, 23, 4, 11, 16, 23,
   6, 10, 15, 21, 6, 10, 15, 21, 6, 10, 15, 21, 6, 10, 15, 21]

def md5F (i b c d : Nat) : Nat :=
  if i < 16 then (b &&& c) ||| (not32 b &&& d)
  else if i < 32 then (d &&& b) ||| (not32 d &&& c)
  else if i < 48 then b ^^^ c ^^^ d
  else c ^^^ (b ||| not32 d)

def md5G (i : Nat) : Nat :=
  if i < 16 then i
  else if i < 32 then (5 * i + 1) % 16
  else if i < 48 then (3 * i + 5) % 16
  else (7 * i) % 16

def md5Step (m : List Nat) (st : Nat × Nat × Nat × Nat) (i : Nat) : Nat × Nat × Nat × Nat :=
  match st with
  | (a, b, c, d) =>
    let f := add32 (add32 (add32 (md5F i b c d) a) (md5K.getD i 0)) (m.getD (md5G i) 0)
    (d, add32 b (rotl32 f (md5S.getD i 0)), b, c)

def md5Block (st : Nat × Nat × Nat × Nat) (m : List Nat) : Nat × Nat × Nat × Nat :=
  match st, (List.range 64).foldl (md5Step m) st with
  | (a, b, c, d), (a', b', c', d') => (add32 a a', add32 b b', add32 c c', add32 d d')

/-- Group bytes into 32-bit little-endian words. -/
def toWords : List Nat → List Nat
  | b0 :: b1 :: b2 :: b3 :: rest => (b0 + 256 * (b1 + 256 * (b2 + 256 * b3))) :: toWords rest
  | _ => []

/-- Run the compression function over `k` consecutive 64-byte blocks. -/
def md5Blocks : Nat → (Nat × Nat × Nat × Nat) → List Nat → Nat × Nat × Nat × Nat
  | 0, st, _ => st
  | k + 1, st, l => md5Blocks k (md5Block st (toWords (l.take 64))) (l.drop 64)

def lenBytes (n : Nat) : List Nat :=
  [n % 256, n >>> 8 % 256, n >>> 16 % 256, n >>> 24 % 256,
   n >>> 32 % 256, n >>> 40 % 256, n >>> 48 % 256, n >>> 56 % 256]

/-- MD5 padding: a 0x80 byte, zeros up to 56 mod 64, then the bit length
as a 64-bit little-endian quantity. -/
def md5Pad (msg : List Nat) : List Nat :=
  msg ++ 0x80 :: List.replicate ((120 - (msg.length + 1) % 64) % 64) 0
      ++ lenBytes ((8 * msg.length) % 2 ^ 64)

def md5Init : Nat × Nat × Nat × Nat := (0x67452301, 0xefcdab89, 0x98badcfe, 0x10325476)

/-- The four 32-bit state words of the MD5 digest of a byte string. -/
def md5Words (msg : List Nat) : Nat × Nat × Nat × Nat :=
  let p := md5Pad msg
  md5Blocks (p.length / 64) md5Init p

/-- Lowercase hexadecimal digit, as `hexdigest` prints them. -/
def hexDigitChar (n : Nat) : Char :=
  if n < 10 then Char.ofNat (48 + n) else Char.ofNat (87 + n)

def byteHex (b : Nat) : List Char := [hexDigitChar (b / 16 % 16), hexDigitChar (b % 16)]

def wordHexChars (w : Nat) : List Char :=
  byteHex (w % 256) ++ byteHex (w >>> 8 % 256) ++ byteHex (w >>> 16 % 256) ++ byteHex (w >>> 24 % 256)

/-- `hashlib.md5(msg).hexdigest()`: 32 lowercase hex characters, the digest
bytes in little-endian word order. -/
def md5Hex (msg : List Nat) : String :=
  match md5Words msg with
  | (a, b, c, d) => String.mk (wordHexChars a ++ wordHexChars b ++ wordHexChars c ++ wordHexChars d)

/-- UTF-8 encoding of one Unicode scalar value (Python `str.encode()`). -/
def utf8Bytes (c : Char) : List Nat :=
  let n := c.toNat
  if n < 0x80 then [n]
  else if n < 0x800 then [0xC0 ||| (n >>> 6), 0x80 ||| (n &&& 0x3F)]
  else if n < 0x10000 then
    [0xE0 ||| (n >>> 12), 0x80 ||| ((n >>> 6) &&& 0x3F), 0x80 ||| (n &&& 0x3F)]
  else
    [0xF0 ||| (n >>> 18), 0x80 ||| ((n >>> 12) &&& 0x3F),
     0x80 ||| ((n >>> 6) &&& 0x3F), 0x80 ||| (n &&& 0x3F)]

def strBytes (s : String) : List Nat := s.data.foldr (fun c acc => utf8Bytes c ++ acc) []

/-! ## `nexusmods_scraper.py` -/

/-- `BugReport` dataclass of `nexusmods_scraper.py` (lines 12-22). -/
structure BugReport where
  bug_id : String
  title : String
  description : String
  author : String
  date_posted : String
  status : String
  url : String
deriving DecidableEq

/-- The string hashed by `BugReport.content_hash`
(line 28: `f"{self.title}|{self.description}|{self.status}"`). -/
def BugReport.contentString (b : BugReport) : String :=
  b.title ++ "|" ++ b.description ++ "|" ++ b.status

/-- `BugReport.content_hash` (lines 24-29):
`hashlib.md5(content.encode()).hexdigest()`. -/
def BugReport.content_hash (b : BugReport) : String :=
  md5Hex (strBytes b.contentString)

def BASE_URL : String := "https://www.nexusmods.com"

/-- One `tr` element of the bug listing table, as `_parse_bug_row` reads it:
the `data-issue-id` attribute, the text of the `.issue-title` element if
present, the text of the `.table-bug-status span` element if present, and
the `time` element if present ((`data-date` attribute, element text)). -/
structure Row where
  issue_id : Option String
  title_text : Option String
  status_text : Option String
  time_elem : Option (Option String × String)
deriving DecidableEq

/-- `NexusModsScraper._parse_bug_row` (lines 85-117). A row whose
`data-issue-id` is absent or empty (Python falsy) yields `none`. -/
def parse_bug_row (game mod_id : String) (r : Row) : Option BugReport :=
  match r.issue_id with
  | none => none
  | some bid =>
    if bid = "" then none
    else
      let title := match r.title_text with
        | some t => t
        | none => "Unknown"
      let url := BASE_URL ++ "/" ++ game ++ "/mods/" ++ mod_id ++ "?tab=bugs&issue_id=" ++ bid
      let status := match r.status_text with
        | some s => s
        | none => "Unknown"
      let date_posted := match r.time_elem with
        | none => "Unknown"
        | some (attr, txt) =>
          match attr with
          | some a => if a = "" then txt else a
          | none => txt
      some { bug_id := bid, title := title, description := "", author := "Unknown",
             date_posted := date_posted, status := status, url := url }

/-- A fetched and parsed bug-listing page: its bug rows (whichever of the two
CSS selectors of lines 176-179 matched) and whether a "next page" link
(line 197-199 selector) is present. -/
structure ListingPage where
  rows : List Row
  hasNext : Bool
deriving DecidableEq

/-- The while-loop of `NexusModsScraper.scrape_bugs` (lines 165-204), with
the external site modelled as a map from page number to the fetched page
(`none` = `_fetch_page` exhausted its retries). Returns the list of pages
fetched and the accumulated bug reports. `fuel` bounds the unbounded
`while True`; the claims below quantify over sufficiently large fuel. -/
def scrapeAux (game mod_id : String) (world : Nat → Option ListingPage) :
    Nat → Nat → List Nat × List BugReport
  | 0, _ => ([], [])
  | fuel + 1, page =>
    match world page with
    | none => ([page], [])
    | some p =>
      if p.rows.isEmpty then ([page], [])
      else
        let page_bugs := p.rows.filterMap (parse_bug_row game mod_id)
        if page_bugs.isEmpty then ([page], [])
        else if p.hasNext then
          match scrapeAux game mod_id world fuel (page + 1) with
          | (fs, bs) => (page :: fs, page_bugs ++ bs)
        else ([page], page_bugs)

/-- `NexusModsScraper.scrape_bugs` with `fetch_details=False` (the detail
pass of lines 207-211 only rewrites `description` fields in place, keeping
list length and order). Pagination starts at page 1 (line 166). -/
def scrape_bugs (game mod_id : String) (world : Nat → Option ListingPage) (fuel : Nat) :
    List Nat × List BugReport :=
  scrapeAux game mod_id world fuel 1

/-- Pages `s, s+1, ..., s+n-1` (the claimed fetch sequence). -/
def pagesFrom (s n : Nat) : List Nat :=
  match n with
  | 0 => []
  | n + 1 => s :: pagesFrom (s + 1) n

/-- The records parsed from the rows of page `i` of the modelled site. -/
def pageRecords (game mod_id : String) (world : Nat → Option ListingPage) (i : Nat) :
    List BugReport :=
  match world i with
  | none => []
  | some p => p.rows.filterMap (parse_bug_row game mod_id)

/-- The records of pages `s .. s+n-1`, in page order then row order. -/
def pagesRecords (game mod_id : String) (world : Nat → Option ListingPage) (s n : Nat) :
    List BugReport :=
  match n with
  | 0 => []
  | n + 1 => pageRecords game mod_id world s ++ pagesRecords game mod_id world (s + 1) n

/-! ## `github_sync.py` -/

def NEXUSMODS_LABEL : String := "nexusmods-bug"

def SYNCED_LABEL : String := "synced"

def TITLE_PREFIX : String := "[NexusMods Bug #"

/-- A GitHub issue as `github_sync.py` consumes it: number, title, body
(`None` possible), URL, labels. -/
structure Issue where
  number : Nat
  title : String
  body : Option String
  html_url : String
  labels : List String
deriving DecidableEq

/-- Python `needle in haystack` on strings: substring containment test,
scanning left to right. -/
def listHasInfix (needle : List Char) : List Char → Bool
  | [] => needle.isEmpty
  | c :: cs => needle.isPrefixOf (c :: cs) || listHasInfix needle cs

def strContains (hay needle : String) : Bool := listHasInfix needle.data hay.data

/-- `GitHubSync._make_issue_title` (lines 53-55). -/
def make_issue_title (bug : BugReport) : String :=
  TITLE_PREFIX ++ bug.bug_id ++ "] " ++ bug.title

/-- `"\n".join` of `str.join`. -/
def joinNL : List String → String
  | [] => ""
  | [x] => x
  | x :: y :: rest => x ++ "\n" ++ joinNL (y :: rest)

/-- The `body_parts` list of `GitHubSync._make_issue_body` (lines 59-74);
`bug.description or "*No description provided*"` uses Python falsiness of
the empty string. -/
def body_parts (bug : BugReport) : List String :=
  ["## Bug Report from NexusMods",
   "",
   (if bug.description = "" then "*No description provided*" else bug.description),
   "",
   "---",
   "",
   "### Metadata",
   "- **Original URL:** " ++ bug.url,
   "- **Author:** " ++ bug.author,
   "- **Date Posted:** " ++ bug.date_posted,
   "- **Status on NexusMods:** " ++ bug.status,
   "",
   "<!-- nexusmods-bug-id:" ++ bug.bug_id ++ " -->",
   "<!-- content-hash:" ++ bug.content_hash ++ " -->"]

/-- `GitHubSync._make_issue_body` (lines 57-75). -/
def make_issue_body (bug : BugReport) : String :=
  joinNL (body_parts bug)

/-- The fixed literal part of the fingerprint marker, as it occurs in the
pattern `<!-- content-hash:([a-f0-9]+) -->` of `_extract_content_hash`. -/
def hashMarkerStart : List Char := "<!-- content-hash:".data

/-- The character class `[a-f0-9]` of the extraction pattern. -/
def isHexC (c : Char) : Bool :=
  (97 ≤ c.toNat && c.toNat ≤ 102) || (48 ≤ c.toNat && c.toNat ≤ 57)

/-- The greedy `[a-f0-9]+` run: the maximal run of hex characters at the
front, and the remainder. -/
def hexRun : List Char → List Char × List Char
  | [] => ([], [])
  | c :: cs =>
    if isHexC c then
      match hexRun cs with
      | (run, rest) => (c :: run, rest)
    else ([], c :: cs)

/-- Match of the regex `<!-- content-hash:([a-f0-9]+) -->` anchored at the
start of `l`, returning the captured hex run. Greedy matching followed by
the literal `" -->"` needs no backtracking: a hex character can never begin
`" -->"`, so only the maximal run can be followed by the space. -/
def matchAt (l : List Char) : Option (List Char) :=
  if hashMarkerStart.isPrefixOf l then
    match hexRun (l.drop hashMarkerStart.length) with
    | (run, rest) =>
      if run.isEmpty then none
      else if " -->".data.isPrefixOf rest then some run else none
  else none

/-- `re.search` of the pattern: the match at the leftmost position where the
whole pattern matches. -/
def searchHash : List Char → Option (List Char)
  | [] => none
  | c :: cs =>
    match matchAt (c :: cs) with
    | some r => some r
    | none => searchHash cs

/-- `GitHubSync._extract_content_hash` (lines 77-80). -/
def extract_content_hash (body : String) : Option String :=
  (searchHash body.data).map String.mk

/-- `GitHubSync._find_existing_issue` (lines 82-105). The two external calls
are modelled as `Except`-valued inputs: `search` is the outcome of
`github.search_issues` (strategy (a)), `labeled` the outcome of
`repo.get_issues(state="all", labels=[NEXUSMODS_LABEL])` (strategy (b));
`.error` means the call raised. A raised or fruitless search falls through
to the labelled listing; a raised or fruitless listing yields `none`. -/
def find_existing_issue (search labeled : Except Unit (List Issue)) (bug_id : String) :
    Option Issue :=
  let marker := TITLE_PREFIX ++ bug_id ++ "]"
  let fromSearch := match search with
    | .ok results => results.find? (fun issue => strContains issue.title marker)
    | .error _ => none
  match fromSearch with
  | some issue => some issue
  | none =>
    match labeled with
    | .ok issues => issues.find? (fun issue => strContains issue.title marker)
    | .error _ => none

/-- The `action` strings of the result dict of `sync_bug`. -/
inductive SyncAction where
  | created
  | updated
  | unchanged
  | would_create
  | would_update
deriving DecidableEq

/-- The result dict of `GitHubSync.sync_bug` (lines 117-122): `issue_number`
is `None`, an integer, or the string `"(new)"`; `issue_url` is `None` or a
string (`"(not created)"` in the dry-run create branch). -/
structure SyncResult where
  bug_id : String
  action : Option SyncAction
  issue_number : Option (Nat ⊕ String)
  issue_url : Option String
deriving DecidableEq

/-- A mutating call against the issue tracker. -/
inductive Effect where
  | createLabel (name color descr : String)
  | createIssue (title body : String) (labels : List String)
  | editIssue (number : Nat) (body : String)
deriving DecidableEq

/-- Modelled from the spec: the issue-tracker's durable state (spec section 6,
"Issue-tracker client": label listing/creation, issue creation with
number/URL, issue edit in place). The tracker itself is an external
collaborator, not code of this repository. -/
structure TrackerState where
  issues : List Issue
  labels : List String
  nextNumber : Nat
deriving DecidableEq

/-- Modelled from the spec: `repo.create_issue(title, body, labels)` returns
the created issue carrying a fresh number and URL (spec section 6). -/
def create_issue (st : TrackerState) (title body : String) (labels : List String) :
    Issue × TrackerState :=
  let issue : Issue :=
    { number := st.nextNumber, title := title, body := some body,
      html_url := "https://github.com/issues/" ++ toString st.nextNumber, labels := labels }
  (issue, { st with issues := st.issues ++ [issue], nextNumber := st.nextNumber + 1 })

/-- Modelled from the spec: `issue.edit(body=new_body)` mutates the stored
issue in place (spec section 6). -/
def edit_issue (st : TrackerState) (number : Nat) (newBody : String) : TrackerState :=
  { st with
    issues := st.issues.map (fun i => if i.number = number then { i with body := some newBody } else i) }

/-- `GitHubSync._ensure_labels` (lines 35-51): create each of the two labels
when absent. -/
def ensure_labels_effects (st : TrackerState) : List Effect :=
  (if st.labels.contains NEXUSMODS_LABEL then []
   else [Effect.createLabel NEXUSMODS_LABEL "7B68EE" "Bug report synced from NexusMods"]) ++
  (if st.labels.contains SYNCED_LABEL then []
   else [Effect.createLabel SYNCED_LABEL "0E8A16" "Automatically synced issue"])

/-- `GitHubSync.__init__` (lines 20-33): `_ensure_labels` runs only outside
dry-run mode. Returns the mutating calls made during construction. -/
def init_effects (dry_run : Bool) (st : TrackerState) : List Effect :=
  if dry_run then [] else ensure_labels_effects st

/-- The decision core of `GitHubSync.sync_bug` (lines 107-171), given the
outcome `existing` of `_find_existing_issue`. Returns the result dict, the
tracker state afterwards, and the mutating calls performed. -/
def sync_bug_core (dry_run : Bool) (bug : BugReport) (existing : Option Issue)
    (st : TrackerState) : SyncResult × TrackerState × List Effect :=
  match existing with
  | some issue =>
    let existing_hash := extract_content_hash (issue.body.getD "")
    let new_hash := bug.content_hash
    if existing_hash = some new_hash then
      ({ bug_id := bug.bug_id, action := some .unchanged,
         issue_number := some (.inl issue.number), issue_url := some issue.html_url },
       st, [])
    else if dry_run then
      ({ bug_id := bug.bug_id, action := some .would_update,
         issue_number := some (.inl issue.number), issue_url := some issue.html_url },
       st, [])
    else
      let new_body := make_issue_body bug
      ({ bug_id := bug.bug_id, action := some .updated,
         issue_number := some (.inl issue.number), issue_url := some issue.html_url },
       edit_issue st issue.number new_body, [.editIssue issue.number new_body])
  | none =>
    if dry_run then
      ({ bug_id := bug.bug_id, action := some .would_create,
         issue_number := some (.inr "(new)"), issue_url := some "(not created)" },
       st, [])
    else
      let title := make_issue_title bug
      let body := make_issue_body bug
      let labels := [NEXUSMODS_LABEL, SYNCED_LABEL]
      match create_issue st title body labels with
      | (new_issue, st') =>
        ({ bug_id := bug.bug_id, action := some .created,
           issue_number := some (.inl new_issue.number), issue_url := some new_issue.html_url },
         st', [.createIssue title body labels])

/-- Modelled from the spec: lookup against the tracker state. The GitHub
search endpoint (spec section 6, "issue search: query string → sequence of
issues") is modelled as returning the repository's issues; the code's own
title filter in `_find_existing_issue` does the narrowing. The labelled
listing returns the issues carrying the sync label. -/
def find_existing_issue_st (st : TrackerState) (bug_id : String) : Option Issue :=
  find_existing_issue (.ok st.issues)
    (.ok (st.issues.filter (fun i => i.labels.contains NEXUSMODS_LABEL))) bug_id

/-- `GitHubSync.sync_bug` run against the modelled tracker: lookup over the
state, then the decision core. -/
def sync_bug_full (dry_run : Bool) (st : TrackerState) (bug : BugReport) :
    SyncResult × TrackerState × List Effect :=
  sync_bug_core dry_run bug (find_existing_issue_st st bug.bug_id) st

/-! ## Shape of the digest string -/

theorem hexDigitChar_hex : ∀ n, n < 16 → isHexC (hexDigitChar n) = true := by decide

theorem byteHex_hex (b : Nat) : (byteHex b).all isHexC = true := by
  have h1 : isHexC (hexDigitChar (b / 16 % 16)) = true :=
    hexDigitChar_hex _ (Nat.mod_lt _ (by decide))
  have h2 : isHexC (hexDigitChar (b % 16)) = true :=
    hexDigitChar_hex _ (Nat.mod_lt _ (by decide))
  simp [byteHex, h1, h2]

theorem wordHexChars_hex (w : Nat) : (wordHexChars w).all isHexC = true := by
  simp only [wordHexChars, List.all_append]
  simp [byteHex_hex]

theorem wordHexChars_length (w : Nat) : (wordHexChars w).length = 8 := by
  simp [wordHexChars, byteHex]

theorem md5Hex_shape (msg : List Nat) :
    ∃ a b c d, md5Hex msg =
      String.mk (wordHexChars a ++ wordHexChars b ++ wordHexChars c ++ wordHexChars d) := by
  rcases h : md5Words msg with ⟨a, b, c, d⟩
  exact ⟨a, b, c, d, by simp [md5Hex, h]⟩

theorem content_hash_hex (bug : BugReport) : bug.content_hash.data.all isHexC = true := by
  obtain ⟨a, b, c, d, h⟩ := md5Hex_shape (strBytes bug.contentString)
  simp only [BugReport.content_hash, h]
  simp [List.all_append, wordHexChars_hex]

theorem content_hash_length (bug : BugReport) : bug.content_hash.data.length = 32 := by
  obtain ⟨a, b, c, d, h⟩ := md5Hex_shape (strBytes bug.contentString)
  simp only [BugReport.content_hash, h]
  simp [wordHexChars_length]

theorem content_hash_ne_nil (bug : BugReport) : bug.content_hash.data ≠ [] := by
  intro h
  have := content_hash_length bug
  rw [h] at this
  simp at this

/-! ## Facts about `listHasInfix` (Python substring containment) -/

theorem listHasInfix_iff (needle hay : List Char) :
    listHasInfix needle hay = true ↔ needle <:+: hay := by
  induction hay with
  | nil =>
    simp [listHasInfix, List.isEmpty_iff]
  | cons c cs ih =>
    simp only [listHasInfix, Bool.or_eq_true, List.infix_cons_iff, ih,
      List.isPrefixOf_iff_prefix]

theorem listHasInfix_of_isInfix {needle hay : List Char} (h : needle <:+: hay) :
    listHasInfix needle hay = true :=
  (listHasInfix_iff needle hay).mpr h

/-! ## Behaviour of the fingerprint-extraction search -/

theorem hexRun_append (xs rest : List Char) (hxs : xs.all isHexC = true)
    (hrest : ∀ c cs, rest = c :: cs → isHexC c = false) :
    hexRun (xs ++ rest) = (xs, rest) := by
  induction xs with
  | nil =>
    cases rest with
    | nil => rfl
    | cons c cs => simp [hexRun, hrest c cs rfl]
  | cons x xs ih =>
    simp only [List.all_cons, Bool.and_eq_true] at hxs
    simp [hexRun, hxs.1, ih hxs.2]

theorem marker_no_border :
    ∀ k, k < 18 → 0 < k →
      hashMarkerStart.take k ≠ hashMarkerStart.drop (18 - k) := by decide

theorem hashMarkerStart_length : hashMarkerStart.length = 18 := by decide


/-- No occurrence of the marker pattern can start strictly inside text that
does not contain it and extend into a following exact copy of the marker:
the marker has no nonempty proper border. -/
theorem matchAt_none_of_straddle (s u : List Char) (hs : s ≠ [])
    (hlt : s.length < hashMarkerStart.length) :
    matchAt (s ++ (hashMarkerStart ++ u)) = none := by
  have h18 := hashMarkerStart_length
  have hm : 0 < s.length := List.length_pos.mpr hs
  have hnp : ¬ hashMarkerStart <+: (s ++ (hashMarkerStart ++ u)) := by
    intro hp
    have h1 := List.prefix_iff_eq_take.mp hp
    rw [List.take_append_eq_append_take, List.take_of_length_le (le_of_lt hlt),
      List.take_append_eq_append_take] at h1
    rw [show hashMarkerStart.length - s.length - hashMarkerStart.length = 0 by omega,
      List.take_zero, List.append_nil] at h1
    have hdrop : hashMarkerStart.drop s.length =
        hashMarkerStart.take (hashMarkerStart.length - s.length) := by
      conv_lhs => rw [h1]
      exact List.drop_left s _
    refine marker_no_border (hashMarkerStart.length - s.length) (by omega) (by omega) ?_
    rw [show 18 - (hashMarkerStart.length - s.length) = s.length by omega]
    exact hdrop.symm
  simp [matchAt, List.isPrefixOf_iff_prefix, hnp]

/-- Skipping a region in which no match starts. -/
theorem searchHash_append (a t : List Char)
    (h : ∀ s, s ≠ [] → s <:+ a → matchAt (s ++ t) = none) :
    searchHash (a ++ t) = searchHash t := by
  induction a with
  | nil => rfl
  | cons c a' ih =>
    have hm : matchAt ((c :: a') ++ t) = none :=
      h (c :: a') (by simp) (List.suffix_rfl)
    rw [List.cons_append, searchHash]
    rw [List.cons_append] at hm
    rw [hm]
    exact ih (fun s hne hsuf => h s hne (hsuf.trans (List.suffix_cons c a')))

theorem searchHash_cons_of_matchAt {l : List Char} {r : List Char} (hne : l ≠ [])
    (hm : matchAt l = some r) : searchHash l = some r := by
  cases l with
  | nil => exact absurd rfl hne
  | cons c cs => rw [searchHash, hm]

/-- The anchored match at the genuine trailing marker succeeds and captures
exactly the digest. -/
theorem matchAt_marker (digest : List Char) (hhex : digest.all isHexC = true)
    (hne : digest ≠ []) :
    matchAt (hashMarkerStart ++ (digest ++ " -->".data)) = some digest := by
  have hpre : hashMarkerStart.isPrefixOf (hashMarkerStart ++ (digest ++ " -->".data)) = true := by
    rw [List.isPrefixOf_iff_prefix]
    exact List.prefix_append _ _
  have hdrop : (hashMarkerStart ++ (digest ++ " -->".data)).drop hashMarkerStart.length
      = digest ++ " -->".data := List.drop_left _ _
  have hrun : hexRun (digest ++ " -->".data) = (digest, " -->".data) := by
    apply hexRun_append _ _ hhex
    intro c cs hcs
    have h4 : " -->".data = ' ' :: "-->".data := rfl
    rw [h4] at hcs
    injection hcs with h5 h6
    rw [← h5]
    decide
  have hie : digest.isEmpty = false := by
    cases digest with
    | nil => exact absurd rfl hne
    | cons x xs => rfl
  have hp2 : " -->".data.isPrefixOf " -->".data = true := by
    rw [List.isPrefixOf_iff_prefix]
  rw [matchAt, if_pos hpre, hdrop, hrun]
  simp [hie, hp2]

/-! ## Round trip: body generation and fingerprint extraction -/

/-- The first 13 of the 14 `body_parts`: everything before the trailing
content-hash marker line. -/
def body_parts_head (bug : BugReport) : List String :=
  ["## Bug Report from NexusMods",
   "",
   (if bug.description = "" then "*No description provided*" else bug.description),
   "",
   "---",
   "",
   "### Metadata",
   "- **Original URL:** " ++ bug.url,
   "- **Author:** " ++ bug.author,
   "- **Date Posted:** " ++ bug.date_posted,
   "- **Status on NexusMods:** " ++ bug.status,
   "",
   "<!-- nexusmods-bug-id:" ++ bug.bug_id ++ " -->"]

/-- The characters of the issue body that precede its trailing content-hash
marker. -/
def bodyHeadChars (bug : BugReport) : List Char :=
  (joinNL (body_parts_head bug)).data ++ ['\n']

theorem body_parts_split (bug : BugReport) :
    body_parts bug = body_parts_head bug ++
      ["<!-- content-hash:" ++ bug.content_hash ++ " -->"] := rfl

theorem joinNL_append_single (l : List String) (x : String) (h : l ≠ []) :
    joinNL (l ++ [x]) = joinNL l ++ "\n" ++ x := by
  induction l with
  | nil => exact absurd rfl h
  | cons y ys ih =>
    cases ys with
    | nil => rfl
    | cons z zs =>
      calc joinNL ((y :: z :: zs) ++ [x])
          = y ++ "\n" ++ joinNL ((z :: zs) ++ [x]) := rfl
        _ = y ++ "\n" ++ (joinNL (z :: zs) ++ "\n" ++ x) := by rw [ih (by simp)]
        _ = (y ++ "\n" ++ joinNL (z :: zs)) ++ "\n" ++ x := by
              simp [String.append_assoc]
        _ = joinNL (y :: z :: zs) ++ "\n" ++ x := rfl

theorem make_issue_body_data (bug : BugReport) :
    (make_issue_body bug).data =
      bodyHeadChars bug ++ (hashMarkerStart ++ (bug.content_hash.data ++ " -->".data)) := by
  have h1 : make_issue_body bug =
      joinNL (body_parts_head bug) ++ "\n" ++
        ("<!-- content-hash:" ++ bug.content_hash ++ " -->") := by
    rw [make_issue_body, body_parts_split]
    exact joinNL_append_single _ _ (by exact List.cons_ne_nil _ _)
  have hnl : "\n".data = ['\n'] := rfl
  rw [h1]
  simp only [String.data_append, hnl, bodyHeadChars, hashMarkerStart, List.append_assoc]

theorem hashMarkerStart_ne_nil : hashMarkerStart ≠ [] := by decide

/-- Extraction inverts body generation whenever the marker pattern does not
already occur in the part of the body before the trailing marker. -/
theorem extract_make_issue_body (bug : BugReport)
    (h : listHasInfix hashMarkerStart (bodyHeadChars bug) = false) :
    extract_content_hash (make_issue_body bug) = some bug.content_hash := by
  rw [extract_content_hash, make_issue_body_data]
  have hne : hashMarkerStart ++ (bug.content_hash.data ++ " -->".data) ≠ [] := by
    intro habs
    have hlena := congrArg List.length habs
    rw [List.length_append, hashMarkerStart_length] at hlena
    simp at hlena
  have hsearch : searchHash (bodyHeadChars bug ++
      (hashMarkerStart ++ (bug.content_hash.data ++ " -->".data)))
      = some bug.content_hash.data := by
    rw [searchHash_append]
    · exact searchHash_cons_of_matchAt hne
        (matchAt_marker bug.content_hash.data (content_hash_hex bug) (content_hash_ne_nil bug))
    · intro s hsne hsuf
      by_cases hcase : s.length < hashMarkerStart.length
      · exact matchAt_none_of_straddle s _ hsne hcase
      · push_neg at hcase
        have hnp : ¬ hashMarkerStart <+:
            (s ++ (hashMarkerStart ++ (bug.content_hash.data ++ " -->".data))) := by
          intro hp
          have h1 := List.prefix_iff_eq_take.mp hp
          rw [List.take_append_of_le_length hcase] at h1
          have hpfx : hashMarkerStart <+: s := h1 ▸ List.take_prefix _ s
          have hinf : hashMarkerStart <:+: bodyHeadChars bug :=
            hpfx.isInfix.trans hsuf.isInfix
          rw [listHasInfix_of_isInfix hinf] at h
          simp at h
        simp [matchAt, List.isPrefixOf_iff_prefix, hnp]
  rw [hsearch]
  rfl

/-! ## The digest has only 2^128 possible values: collisions exist -/

theorem add32_lt (a b : Nat) : add32 a b < M32 := Nat.mod_lt _ (by decide)

theorem md5Block_lt (st : Nat × Nat × Nat × Nat) (m : List Nat) :
    (md5Block st m).1 < M32 ∧ (md5Block st m).2.1 < M32 ∧
    (md5Block st m).2.2.1 < M32 ∧ (md5Block st m).2.2.2 < M32 := by
  rcases st with ⟨a, b, c, d⟩
  rcases h : (List.range 64).foldl (md5Step m) (a, b, c, d) with ⟨a', b', c', d'⟩
  simp [md5Block, h, add32_lt]

theorem md5Blocks_lt (k : Nat) (st : Nat × Nat × Nat × Nat) (l : List Nat)
    (h : st.1 < M32 ∧ st.2.1 < M32 ∧ st.2.2.1 < M32 ∧ st.2.2.2 < M32) :
    (md5Blocks k st l).1 < M32 ∧ (md5Blocks k st l).2.1 < M32 ∧
    (md5Blocks k st l).2.2.1 < M32 ∧ (md5Blocks k st l).2.2.2 < M32 := by
  induction k generalizing st l with
  | zero => exact h
  | succ k ih =>
    simp only [md5Blocks]
    exact ih _ _ (md5Block_lt st (toWords (l.take 64)))

theorem md5Words_lt (msg : List Nat) :
    (md5Words msg).1 < M32 ∧ (md5Words msg).2.1 < M32 ∧
    (md5Words msg).2.2.1 < M32 ∧ (md5Words msg).2.2.2 < M32 := by
  rw [md5Words]
  exact md5Blocks_lt _ _ _ (by decide)

/-- The digest state packaged with its range: there are finitely many
possible digests. -/
def md5WordsFin (msg : List Nat) : Fin M32 × Fin M32 × Fin M32 × Fin M32 :=
  (⟨(md5Words msg).1, (md5Words_lt msg).1⟩,
   ⟨(md5Words msg).2.1, (md5Words_lt msg).2.1⟩,
   ⟨(md5Words msg).2.2.1, (md5Words_lt msg).2.2.1⟩,
   ⟨(md5Words msg).2.2.2, (md5Words_lt msg).2.2.2⟩)

theorem md5Hex_eq_of_wordsFin_eq {m1 m2 : List Nat}
    (h : md5WordsFin m1 = md5WordsFin m2) : md5Hex m1 = md5Hex m2 := by
  have h1 : (md5Words m1).1 = (md5Words m2).1 := congrArg (fun x => x.1.val) h
  have h2 : (md5Words m1).2.1 = (md5Words m2).2.1 := congrArg (fun x => x.2.1.val) h
  have h3 : (md5Words m1).2.2.1 = (md5Words m2).2.2.1 := congrArg (fun x => x.2.2.1.val) h
  have h4 : (md5Words m1).2.2.2 = (md5Words m2).2.2.2 := congrArg (fun x => x.2.2.2.val) h
  have hw : md5Words m1 = md5Words m2 := by
    rcases hA : md5Words m1 with ⟨a, b, c, d⟩
    rcases hB : md5Words m2 with ⟨a', b', c', d'⟩
    rw [hA, hB] at h1 h2 h3 h4
    simp only at h1 h2 h3 h4
    simp [h1, h2, h3, h4]
  unfold md5Hex
  rw [hw]

/-- A family of records that differ pairwise only in `title`. -/
def recT (n : Nat) : BugReport :=
  { bug_id := "0", title := String.mk (List.replicate n 'a'), description := "",
    author := "A", date_posted := "D", status := "", url := "U" }

theorem recT_title_ne {m n : Nat} (h : m ≠ n) : (recT m).title ≠ (recT n).title := by
  intro he
  apply h
  have hd : List.replicate m 'a' = List.replicate n 'a' := congrArg String.data he
  have hl := congrArg List.length hd
  simpa using hl

/-! ## Claim C1 -/

/-- C1 fails as stated: the fingerprint is a 128-bit MD5 digest, so among
the infinitely many records that differ only in `title` two must share a
fingerprint — "changing title alone ALWAYS changes the fingerprint" is
false of `BugReport.content_hash`. -/
theorem C1_counterexample :
    ¬ (∀ r r' : BugReport, r.description = r'.description → r.status = r'.status →
        r.title ≠ r'.title → r.content_hash ≠ r'.content_hash) := by
  intro hclaim
  obtain ⟨m, n, hmn, hfe⟩ := Finite.exists_ne_map_eq_of_infinite
    (fun k : Nat => md5WordsFin (strBytes (recT k).contentString))
  exact hclaim (recT m) (recT n) rfl rfl (recT_title_ne hmn)
    (md5Hex_eq_of_wordsFin_eq hfe)

/-- C1 (amended): the fingerprint is deterministic and depends only on
(title, description, status) — records agreeing on those three fields get
the same fingerprint, so changing `author`, `date_posted` or `url` alone
never changes it; and changing `title`, `description` or `status` alone
always changes the hashed content string (the 128-bit digest itself may
collide, MD5 being non-injective). -/
theorem C1_amended :
    (∀ r : BugReport, r.content_hash = r.content_hash) ∧
    (∀ r r' : BugReport, r.title = r'.title → r.description = r'.description →
      r.status = r'.status → r.content_hash = r'.content_hash) ∧
    (∀ r r' : BugReport, r.description = r'.description → r.status = r'.status →
      r.title ≠ r'.title → r.contentString ≠ r'.contentString) ∧
    (∀ r r' : BugReport, r.title = r'.title → r.status = r'.status →
      r.description ≠ r'.description → r.contentString ≠ r'.contentString) ∧
    (∀ r r' : BugReport, r.title = r'.title → r.description = r'.description →
      r.status ≠ r'.status → r.contentString ≠ r'.contentString) := by
  refine ⟨fun r => rfl, ?_, ?_, ?_, ?_⟩
  · intro r r' h1 h2 h3
    simp [BugReport.content_hash, BugReport.contentString, h1, h2, h3]
  · intro r r' hd hs hne he
    have hdata := congrArg String.data he
    simp only [BugReport.contentString, String.data_append, hd, hs] at hdata
    apply hne
    apply String.ext
    have h1 := List.append_cancel_right hdata
    have h2 := List.append_cancel_right h1
    have h3 := List.append_cancel_right h2
    exact List.append_cancel_right h3
  · intro r r' ht hs hne he
    have hdata := congrArg String.data he
    simp only [BugReport.contentString, String.data_append, ht, hs] at hdata
    apply hne
    apply String.ext
    have h1 := List.append_cancel_right hdata
    have h2 := List.append_cancel_right h1
    exact List.append_cancel_left h2
  · intro r r' ht hd hne he
    have hdata := congrArg String.data he
    simp only [BugReport.contentString, String.data_append, ht, hd] at hdata
    apply hne
    apply String.ext
    exact List.append_cancel_left hdata

/-- C1 (amended) at concrete inputs: a pair differing only in `author` has
equal fingerprints, and a pair differing only in `title` has different
content strings. -/
theorem C1_amended_witness :
    ({ bug_id := "1", title := "t", description := "d", author := "alice",
       date_posted := "p", status := "s", url := "u" } : BugReport).content_hash =
    ({ bug_id := "1", title := "t", description := "d", author := "bob",
       date_posted := "q", status := "s", url := "v" } : BugReport).content_hash ∧
    ({ bug_id := "1", title := "t", description := "d", author := "a",
       date_posted := "p", status := "s", url := "u" } : BugReport).contentString ≠
    ({ bug_id := "1", title := "t2", description := "d", author := "a",
       date_posted := "p", status := "s", url := "u" } : BugReport).contentString :=
  ⟨C1_amended.2.1 _ _ rfl rfl rfl, C1_amended.2.2.1 _ _ rfl rfl (by decide)⟩

/-! ## Claims C2, C3, C5, C7, C10 (reconciler) -/

/-- C2: whenever lookup found an issue whose body's embedded fingerprint
equals the record's fingerprint, `sync_bug` reports `unchanged` with that
issue's number and URL, leaves the tracker untouched, and performs no
mutating call — in dry-run and real mode alike. -/
theorem C2_unchanged (dry_run : Bool) (bug : BugReport) (issue : Issue) (st : TrackerState)
    (h : extract_content_hash (issue.body.getD "") = some bug.content_hash) :
    sync_bug_core dry_run bug (some issue) st =
      ({ bug_id := bug.bug_id, action := some .unchanged,
         issue_number := some (.inl issue.number), issue_url := some issue.html_url },
       st, []) := by
  simp [sync_bug_core, h]

/-- The record of the specification's scenario in section 8. -/
def bug42 : BugReport :=
  { bug_id := "42", title := "Crash on load", description := "Game crashes",
    author := "Unknown", date_posted := "Unknown", status := "Open", url := "" }

/-- An issue holding the body generated for `bug42`. -/
def issue42 : Issue :=
  { number := 7, title := make_issue_title bug42, body := some (make_issue_body bug42),
    html_url := "https://github.com/issues/7", labels := [NEXUSMODS_LABEL, SYNCED_LABEL] }

def st42 : TrackerState :=
  { issues := [issue42], labels := [NEXUSMODS_LABEL, SYNCED_LABEL], nextNumber := 8 }

/-- C2 at a concrete input: the body generated for `bug42` embeds exactly
its fingerprint, and re-syncing it against that issue is a no-op. -/
theorem C2_witness :
    extract_content_hash (issue42.body.getD "") = some bug42.content_hash ∧
    sync_bug_core false bug42 (some issue42) st42 =
      ({ bug_id := bug42.bug_id, action := some .unchanged,
         issue_number := some (.inl issue42.number), issue_url := some issue42.html_url },
       st42, []) := by
  have h : extract_content_hash (issue42.body.getD "") = some bug42.content_hash :=
    extract_make_issue_body bug42 (by decide)
  exact ⟨h, C2_unchanged false bug42 issue42 st42 h⟩

/-- C3: with dry-run set, construction creates no label, `sync_bug` performs
no mutating call and leaves the tracker state unchanged, and the action is
still computed: `would_create` when lookup found nothing, `unchanged` when
the embedded fingerprint matches, `would_update` otherwise. -/
theorem C3_dry_run_pure (bug : BugReport) (existing : Option Issue) (st : TrackerState) :
    init_effects true st = [] ∧
    (sync_bug_core true bug existing st).2.2 = [] ∧
    (sync_bug_core true bug existing st).2.1 = st ∧
    (sync_bug_core true bug existing st).1.action = some (
      match existing with
      | none => SyncAction.would_create
      | some issue =>
        if extract_content_hash (issue.body.getD "") = some bug.content_hash
        then SyncAction.unchanged else SyncAction.would_update) := by
  refine ⟨rfl, ?_, ?_, ?_⟩ <;>
  · cases existing with
    | none => simp [sync_bug_core]
    | some issue =>
      by_cases hx : extract_content_hash (issue.body.getD "") = some bug.content_hash <;>
        simp [sync_bug_core, hx]

def stEmpty : TrackerState := { issues := [], labels := [], nextNumber := 1 }

/-- C5 fails as stated: for the scenario record the created issue is titled
with the code's full marker `"[NexusMods Bug #42] Crash on load"`
(`TITLE_PREFIX = "[NexusMods Bug #"`), not `"[Bug #42] Crash on load"`. -/
theorem C5_counterexample :
    (sync_bug_core false bug42 none stEmpty).1.action = some SyncAction.created ∧
    (sync_bug_core false bug42 none stEmpty).2.1.issues.map Issue.title
      = ["[NexusMods Bug #42] Crash on load"] ∧
    "[NexusMods Bug #42] Crash on load" ≠ "[Bug #42] Crash on load" := by
  refine ⟨rfl, by decide, by decide⟩

/-- C5 (amended): for the scenario record with no existing issue and
dry-run false, `sync_bug` returns `created` and the created issue is titled
`"[NexusMods Bug #42] Crash on load"`. -/
theorem C5_created_title (st : TrackerState) :
    make_issue_title bug42 = "[NexusMods Bug #42] Crash on load" ∧
    (sync_bug_core false bug42 none st).1.action = some SyncAction.created ∧
    (sync_bug_core false bug42 none st).2.2 =
      [Effect.createIssue (make_issue_title bug42) (make_issue_body bug42)
        [NEXUSMODS_LABEL, SYNCED_LABEL]] :=
  ⟨by decide, rfl, rfl⟩

/-- C7: `_find_existing_issue` is total over every combination of
search/list outcomes (including both raising): it returns either `none` or
an issue whose title contains the `"[NexusMods Bug #<id>]"` marker. -/
theorem C7_lookup_total (search labeled : Except Unit (List Issue)) (bug_id : String) :
    find_existing_issue search labeled bug_id = none ∨
    ∃ issue, find_existing_issue search labeled bug_id = some issue ∧
      strContains issue.title (TITLE_PREFIX ++ bug_id ++ "]") = true := by
  cases search with
  | ok rs =>
    rcases hf : rs.find? (fun issue => strContains issue.title (TITLE_PREFIX ++ bug_id ++ "]"))
      with _ | issue
    · cases labeled with
      | ok is =>
        rcases hg : is.find? (fun issue => strContains issue.title (TITLE_PREFIX ++ bug_id ++ "]"))
          with _ | issue
        · left; simp [find_existing_issue, hf, hg]
        · right
          refine ⟨issue, by simp [find_existing_issue, hf, hg], ?_⟩
          simpa using List.find?_some hg
      | error e => left; simp [find_existing_issue, hf]
    · right
      refine ⟨issue, by simp [find_existing_issue, hf], ?_⟩
      simpa using List.find?_some hf
  | error e =>
    cases labeled with
    | ok is =>
      rcases hg : is.find? (fun issue => strContains issue.title (TITLE_PREFIX ++ bug_id ++ "]"))
        with _ | issue
      · left; simp [find_existing_issue, hg]
      · right
        refine ⟨issue, by simp [find_existing_issue, hg], ?_⟩
        simpa using List.find?_some hg
    | error e2 => left; simp [find_existing_issue]

/-- C10: when the found issue's body is `None` or carries no content-hash
marker, extraction yields no fingerprint, which never compares equal to the
new fingerprint: the action is `would_update` under dry-run and `updated`
(with the body rewritten to the freshly generated one) otherwise — never
`unchanged`. -/
theorem C10_missing_marker (dry_run : Bool) (bug : BugReport) (issue : Issue)
    (st : TrackerState)
    (h : issue.body = none ∨ extract_content_hash (issue.body.getD "") = none) :
    sync_bug_core dry_run bug (some issue) st =
      (if dry_run then
        ({ bug_id := bug.bug_id, action := some .would_update,
           issue_number := some (.inl issue.number), issue_url := some issue.html_url },
         st, [])
       else
        ({ bug_id := bug.bug_id, action := some .updated,
           issue_number := some (.inl issue.number), issue_url := some issue.html_url },
         edit_issue st issue.number (make_issue_body bug),
         [.editIssue issue.number (make_issue_body bug)])) ∧
    (sync_bug_core dry_run bug (some issue) st).1.action ≠ some SyncAction.unchanged := by
  have hnone : extract_content_hash (issue.body.getD "") = none := by
    rcases h with h | h
    · rw [h]; rfl
    · exact h
  constructor
  · cases dry_run <;> simp [sync_bug_core, hnone]
  · cases dry_run <;> simp [sync_bug_core, hnone]

/-- An issue carrying no body at all. -/
def issueNoBody : Issue :=
  { number := 3, title := "[NexusMods Bug #42] Crash on load", body := none,
    html_url := "https://github.com/issues/3", labels := [] }

/-- C10 at a concrete input: an issue with no body at all gets updated, not
reported unchanged. -/
theorem C10_witness :
    (issueNoBody.body = none ∨
      extract_content_hash (issueNoBody.body.getD "") = none) ∧
    (sync_bug_core false bug42 (some issueNoBody) stEmpty).1.action
      ≠ some SyncAction.unchanged :=
  ⟨Or.inl rfl,
   (C10_missing_marker false bug42 issueNoBody stEmpty (Or.inl rfl)).2⟩

/-! ## Claims C8, C9 (scraper) -/

/-- The pagination loop, page by page: if every page before `N` has rows, a
next-page link and at least one parseable row, and page `N` has rows and no
next-page link, the loop visits exactly pages `page .. N` and accumulates
their parsed records in order. -/
theorem scrapeAux_run (game mod_id : String) (world : Nat → Option ListingPage) (N : Nat) :
    ∀ n page fuel : Nat, page + n = N → n + 1 ≤ fuel →
    (∀ i, page ≤ i → i < N → ∃ p, world i = some p ∧ p.rows ≠ [] ∧
      p.rows.filterMap (parse_bug_row game mod_id) ≠ [] ∧ p.hasNext = true) →
    (∃ pN, world N = some pN ∧ pN.rows ≠ [] ∧ pN.hasNext = false) →
    scrapeAux game mod_id world fuel page =
      (pagesFrom page (n + 1), pagesRecords game mod_id world page (n + 1)) := by
  intro n
  induction n with
  | zero =>
    intro page fuel hpage hfuel hmid hlast
    obtain ⟨pN, hw, hrows, hnext⟩ := hlast
    obtain ⟨fuel, rfl⟩ : ∃ f, fuel = f + 1 := ⟨fuel - 1, by omega⟩
    have hpage' : page = N := by omega
    subst hpage'
    have hie : pN.rows.isEmpty = false := by
      cases hr : pN.rows with
      | nil => exact absurd hr hrows
      | cons x xs => rfl
    rw [scrapeAux]
    by_cases hpb : (pN.rows.filterMap (parse_bug_row game mod_id)).isEmpty = true
    · have hplist : pN.rows.filterMap (parse_bug_row game mod_id) = [] := by
        simpa [List.isEmpty_iff] using hpb
      simp [hw, hie, hpb, pagesFrom, pagesRecords, pageRecords, hplist]
    · simp [hw, hie, hpb, hnext, pagesFrom, pagesRecords, pageRecords]
  | succ n ih =>
    intro page fuel hpage hfuel hmid hlast
    obtain ⟨p, hw, hrows, hparse, hnext⟩ := hmid page (le_refl page) (by omega)
    obtain ⟨fuel, rfl⟩ : ∃ f, fuel = f + 1 := ⟨fuel - 1, by omega⟩
    have hie : p.rows.isEmpty = false := by
      cases hr : p.rows with
      | nil => exact absurd hr hrows
      | cons x xs => rfl
    have hpb : (p.rows.filterMap (parse_bug_row game mod_id)).isEmpty = false := by
      cases hr : p.rows.filterMap (parse_bug_row game mod_id) with
      | nil => exact absurd hr hparse
      | cons x xs => rfl
    have hrec := ih (page + 1) fuel (by omega) (by omega)
      (fun i hi hiN => hmid i (by omega) hiN) hlast
    rw [scrapeAux]
    simp [hw, hie, hpb, hnext, hrec, pagesFrom, pagesRecords, pageRecords]

/-- C8 (amended): for a site whose pages `1 .. N-1` each have bug rows, a
next-page link and at least one row carrying the identifier attribute
(so at least one parsed record), and whose page `N` has bug rows and no
next-page link, `scrape_bugs` fetches exactly pages `1 .. N` and returns
the parsed rows of pages `1 .. N`, in page order then row order. -/
theorem C8_pagination (game mod_id : String) (world : Nat → Option ListingPage)
    (N fuel : Nat) (hN : 1 ≤ N) (hfuel : N ≤ fuel)
    (hmid : ∀ i, 1 ≤ i → i < N → ∃ p, world i = some p ∧ p.rows ≠ [] ∧
      p.rows.filterMap (parse_bug_row game mod_id) ≠ [] ∧ p.hasNext = true)
    (hlast : ∃ pN, world N = some pN ∧ pN.rows ≠ [] ∧ pN.hasNext = false) :
    scrape_bugs game mod_id world fuel =
      (pagesFrom 1 N, pagesRecords game mod_id world 1 N) := by
  have h := scrapeAux_run game mod_id world N (N - 1) 1 fuel (by omega) (by omega)
    (fun i hi hiN => hmid i hi hiN) hlast
  rw [scrape_bugs, h]
  congr 1 <;> · congr 1; omega

/-- A listing row with no `data-issue-id` attribute. -/
def rowNoId : Row :=
  { issue_id := none, title_text := some "Broken row", status_text := some "Open",
    time_elem := none }

/-- A listing row carrying an identifier. -/
def rowGood : Row :=
  { issue_id := some "7", title_text := some "Crash", status_text := some "Open",
    time_elem := none }

/-- A two-page site: page 1 has a bug row (without the identifier) and a
next-page link, page 2 has a bug row and no next-page link. -/
def worldX : Nat → Option ListingPage := fun i =>
  if i = 1 then some { rows := [rowNoId], hasNext := true }
  else if i = 2 then some { rows := [rowGood], hasNext := false }
  else none

/-- C8 fails as stated: page 2 of `worldX` has bug rows and no "next page"
affordance, yet `scrape_bugs` stops after page 1 (whose single row parses
to nothing) and returns neither page 2's fetch nor its records. -/
theorem C8_counterexample :
    worldX 1 = some { rows := [rowNoId], hasNext := true } ∧
    worldX 2 = some { rows := [rowGood], hasNext := false } ∧
    ([rowNoId] : List Row) ≠ [] ∧ ([rowGood] : List Row) ≠ [] ∧
    scrape_bugs "game" "mod" worldX 10 ≠
      (pagesFrom 1 2, pagesRecords "game" "mod" worldX 1 2) := by
  decide

/-- C9: a listing row whose identifier attribute is absent or empty parses
to `none` and is dropped from the page's records without affecting the
rows around it. -/
theorem C9_dropped_row (game mod_id : String) (r : Row)
    (h : r.issue_id = none ∨ r.issue_id = some "") (a b : List Row) :
    parse_bug_row game mod_id r = none ∧
    (a ++ r :: b).filterMap (parse_bug_row game mod_id) =
      (a ++ b).filterMap (parse_bug_row game mod_id) := by
  have hp : parse_bug_row game mod_id r = none := by
    rcases h with h | h <;> simp [parse_bug_row, h]
  refine ⟨hp, ?_⟩
  simp [List.filterMap_append, List.filterMap_cons, hp]

/-- C9 at a concrete input: the identifier-less row contributes nothing to
a page that also holds a good row. -/
theorem C9_witness :
    parse_bug_row "game" "mod" rowNoId = none ∧
    ([rowGood] ++ rowNoId :: []).filterMap (parse_bug_row "game" "mod") =
      ([rowGood] ++ []).filterMap (parse_bug_row "game" "mod") :=
  C9_dropped_row "game" "mod" rowNoId (Or.inl rfl) [rowGood] []

/-! ## Claims C4, C6 (marker round trip and idempotence) -/

/-- A record whose description itself embeds a (short, fake) content-hash
marker. -/
def bugX : BugReport :=
  { bug_id := "9", title := "Crash", description := "<!-- content-hash:ff -->",
    author := "A", date_posted := "D", status := "Open", url := "U" }

theorem extract_bugX : extract_content_hash (make_issue_body bugX) = some "ff" := by decide

theorem ff_ne_content_hash (bug : BugReport) : ("ff" : String) ≠ bug.content_hash := by
  intro h2
  have h3 := content_hash_length bug
  rw [← h2] at h3
  exact absurd h3 (by decide)

/-- C4 fails as stated: `re.search` takes the leftmost match over the whole
body, so a description that embeds its own content-hash marker hijacks
extraction — the extracted value is the fake `"ff"`, not the record's
fingerprint. -/
theorem C4_counterexample :
    extract_content_hash (make_issue_body bugX) ≠ some bugX.content_hash := by
  rw [extract_bugX]
  intro he
  exact ff_ne_content_hash bugX (by simpa using he)

/-- C4 (amended): for every record whose body text before the trailing
marker does not contain the marker pattern (in particular, whose fields do
not embed `"<!-- content-hash:"`), extraction inverts body generation:
`extract(_make_issue_body(bug)) = bug.content_hash()`. -/
theorem C4_roundtrip (bug : BugReport)
    (h : listHasInfix hashMarkerStart (bodyHeadChars bug) = false) :
    extract_content_hash (make_issue_body bug) = some bug.content_hash :=
  extract_make_issue_body bug h

/-- C4 (amended) at a concrete input: the scenario record's body round-trips. -/
theorem C4_witness :
    listHasInfix hashMarkerStart (bodyHeadChars bug42) = false ∧
    extract_content_hash (make_issue_body bug42) = some bug42.content_hash :=
  ⟨by decide, C4_roundtrip bug42 (by decide)⟩

/-- Lookup over a tracker state none of whose issue titles carry the
record's title marker finds nothing. -/
theorem lookup_none_of_no_marker (st : TrackerState) (bid : String)
    (h : ∀ issue ∈ st.issues,
      strContains issue.title (TITLE_PREFIX ++ bid ++ "]") = false) :
    find_existing_issue_st st bid = none := by
  have hf : st.issues.find?
      (fun issue => strContains issue.title (TITLE_PREFIX ++ bid ++ "]")) = none :=
    List.find?_eq_none.mpr (fun x hx => by simp [h x hx])
  have hg : (st.issues.filter (fun i => i.labels.contains NEXUSMODS_LABEL)).find?
      (fun issue => strContains issue.title (TITLE_PREFIX ++ bid ++ "]")) = none :=
    List.find?_eq_none.mpr (fun x hx => by simp [h x (List.mem_of_mem_filter hx)])
  simp [find_existing_issue_st, find_existing_issue, hf, hg]
  intro x hx _
  exact h x hx

/-- The generated issue title contains the title marker of its own bug id. -/
theorem marker_in_make_issue_title (bug : BugReport) :
    strContains (make_issue_title bug) (TITLE_PREFIX ++ bug.bug_id ++ "]") = true := by
  have h1 : ("] " : String).data = ']' :: [' '] := rfl
  have h2 : ("]" : String).data = [']'] := rfl
  have hdata : (make_issue_title bug).data
      = (TITLE_PREFIX ++ bug.bug_id ++ "]").data ++ (' ' :: bug.title.data) := by
    simp [make_issue_title, String.data_append, h1, h2]
  rw [strContains, hdata]
  exact listHasInfix_of_isInfix ((List.prefix_append _ _).isInfix)

/-- The issue the real-mode create branch adds to the tracker. -/
def newIssueOf (st : TrackerState) (bug : BugReport) : Issue :=
  { number := st.nextNumber, title := make_issue_title bug,
    body := some (make_issue_body bug),
    html_url := "https://github.com/issues/" ++ toString st.nextNumber,
    labels := [NEXUSMODS_LABEL, SYNCED_LABEL] }

theorem sync_bug_full_create (bug : BugReport) (st : TrackerState)
    (h : find_existing_issue_st st bug.bug_id = none) :
    sync_bug_full false st bug =
      ({ bug_id := bug.bug_id, action := some .created,
         issue_number := some (.inl st.nextNumber),
         issue_url := some ("https://github.com/issues/" ++ toString st.nextNumber) },
       { issues := st.issues ++ [newIssueOf st bug], labels := st.labels,
         nextNumber := st.nextNumber + 1 },
       [.createIssue (make_issue_title bug) (make_issue_body bug)
         [NEXUSMODS_LABEL, SYNCED_LABEL]]) := by
  rw [sync_bug_full, h]
  rfl

/-- After the create, lookup against the same tracker finds the freshly
created issue (its title contains the marker). -/
theorem lookup_after_create (st : TrackerState) (bug : BugReport)
    (h : ∀ issue ∈ st.issues,
      strContains issue.title (TITLE_PREFIX ++ bug.bug_id ++ "]") = false) :
    find_existing_issue_st
      { issues := st.issues ++ [newIssueOf st bug], labels := st.labels,
        nextNumber := st.nextNumber + 1 } bug.bug_id = some (newIssueOf st bug) := by
  have hf : st.issues.find?
      (fun issue => strContains issue.title (TITLE_PREFIX ++ bug.bug_id ++ "]")) = none :=
    List.find?_eq_none.mpr (fun x hx => by simp [h x hx])
  have happ : (st.issues ++ [newIssueOf st bug]).find?
      (fun issue => strContains issue.title (TITLE_PREFIX ++ bug.bug_id ++ "]"))
      = some (newIssueOf st bug) := by
    rw [List.find?_append, hf]
    simp [List.find?, newIssueOf, marker_in_make_issue_title bug]
  simp [find_existing_issue_st, find_existing_issue, happ]

/-- C6 (amended): re-syncing the same record twice in real mode, starting
from a state with no matching issue, yields `created` then `unchanged` —
provided the record's body text before the trailing marker does not itself
contain the marker pattern (else the second extraction is hijacked). -/
theorem C6_idempotent (bug : BugReport) (st : TrackerState)
    (h0 : ∀ issue ∈ st.issues,
      strContains issue.title (TITLE_PREFIX ++ bug.bug_id ++ "]") = false)
    (hclean : listHasInfix hashMarkerStart (bodyHeadChars bug) = false) :
    (sync_bug_full false st bug).1.action = some SyncAction.created ∧
    (sync_bug_full false (sync_bug_full false st bug).2.1 bug).1.action
      = some SyncAction.unchanged := by
  have hn := lookup_none_of_no_marker st bug.bug_id h0
  have hc := sync_bug_full_create bug st hn
  constructor
  · rw [hc]
  · have hst1 : (sync_bug_full false st bug).2.1 =
        { issues := st.issues ++ [newIssueOf st bug], labels := st.labels,
          nextNumber := st.nextNumber + 1 } := by rw [hc]
    rw [hst1, sync_bug_full, lookup_after_create st bug h0]
    have hx := extract_make_issue_body bug hclean
    simp [sync_bug_core, newIssueOf, hx]

/-- C6 (amended) at a concrete input: the scenario record against an empty
tracker. -/
theorem C6_witness :
    (∀ issue ∈ stEmpty.issues,
      strContains issue.title (TITLE_PREFIX ++ bug42.bug_id ++ "]") = false) ∧
    listHasInfix hashMarkerStart (bodyHeadChars bug42) = false ∧
    (sync_bug_full false stEmpty bug42).1.action = some SyncAction.created ∧
    (sync_bug_full false (sync_bug_full false stEmpty bug42).2.1 bug42).1.action
      = some SyncAction.unchanged := by
  have h0 : ∀ issue ∈ stEmpty.issues,
      strContains issue.title (TITLE_PREFIX ++ bug42.bug_id ++ "]") = false := by
    intro issue hi
    exact absurd hi (by simp [stEmpty])
  have hclean : listHasInfix hashMarkerStart (bodyHeadChars bug42) = false := by decide
  have h := C6_idempotent bug42 stEmpty h0 hclean
  exact ⟨h0, hclean, h.1, h.2⟩

/-- C6 fails as stated: for the marker-hijacking record the second sync
extracts the fake `"ff"` from the description, concludes the issue is
stale, and reports `updated`, not `unchanged`. -/
theorem C6_counterexample :
    (sync_bug_full false stEmpty bugX).1.action = some SyncAction.created ∧
    (sync_bug_full false (sync_bug_full false stEmpty bugX).2.1 bugX).1.action
      = some SyncAction.updated ∧
    SyncAction.updated ≠ SyncAction.unchanged := by
  have h0 : ∀ issue ∈ stEmpty.issues,
      strContains issue.title (TITLE_PREFIX ++ bugX.bug_id ++ "]") = false := by
    intro issue hi
    exact absurd hi (by simp [stEmpty])
  have hn := lookup_none_of_no_marker stEmpty bugX.bug_id h0
  have hc := sync_bug_full_create bugX stEmpty hn
  refine ⟨by rw [hc], ?_, by decide⟩
  have hst1 : (sync_bug_full false stEmpty bugX).2.1 =
      { issues := stEmpty.issues ++ [newIssueOf stEmpty bugX], labels := stEmpty.labels,
        nextNumber := stEmpty.nextNumber + 1 } := by rw [hc]
  rw [hst1, sync_bug_full, lookup_after_create stEmpty bugX h0]
  simp [sync_bug_core, newIssueOf, extract_bugX, ff_ne_content_hash bugX]

/-- A well-behaved two-page site: both pages have an identifier-carrying
row; page 1 links to a next page, page 2 does not. -/
def worldY : Nat → Option ListingPage := fun i =>
  if i = 1 then some { rows := [rowGood], hasNext := true }
  else if i = 2 then some { rows := [{ rowGood with issue_id := some "8" }], hasNext := false }
  else none

/-- C8 (amended) at a concrete input: the two-page site is scraped in full,
in order. -/
theorem C8_witness :
    scrape_bugs "game" "mod" worldY 10 =
      (pagesFrom 1 2, pagesRecords "game" "mod" worldY 1 2) := by
  apply C8_pagination "game" "mod" worldY 2 10 (by decide) (by decide)
  · intro i h1 h2
    have hi : i = 1 := by omega
    subst hi
    exact ⟨{ rows := [rowGood], hasNext := true }, rfl, by decide, by decide, rfl⟩
  · exact ⟨{ rows := [{ rowGood with issue_id := some "8" }], hasNext := false }, rfl,
      by decide, rfl⟩
